import Mathlib

/-!
Verification of the BrinkHomeCloud HTTP client
(custom_components/brink_home/core/brink_home_cloud.py).

The client is embedded shallowly: JSON values are an inductive type,
Python dictionary/list access is modelled with explicit error results,
the aiohttp session is a function from requests to session results,
and every public method is a pure function from the client state to a
result, a post-state and the list of HTTP requests it issued.
-/

namespace BrinkHome

/-- JSON values as decoded by response.json(). Objects keep field order. -/
inductive Json where
  | null
  | bool (b : Bool)
  | num (n : Int)
  | str (s : String)
  | arr (items : List Json)
  | obj (fields : List (String × Json))
deriving Repr

/-- The Python exceptions the client can raise: structural errors from
dictionary and list access, plus the three error kinds of the HTTP layer. -/
inductive PyError where
  | keyError (key : String)
  | indexError
  | attributeError
  | typeError
  | statusError (status : Nat)
  | timeoutError
  | transportError
deriving Repr, DecidableEq

/-- First binding of a key in an object field list (Python dictionaries have
unique keys, so first and only). -/
def Json.lookupField : List (String × Json) → String → Option Json
  | [], _ => none
  | (k, v) :: rest, key => if k = key then some v else Json.lookupField rest key

/-- Python dict.get(key, default): returns the default when the key is
absent; raises AttributeError when the receiver is not a dictionary
(for example a list, as happens when a default [] is chained into get). -/
def Json.get (j : Json) (key : String) (default : Json) : Except PyError Json :=
  match j with
  | .obj fields => .ok ((Json.lookupField fields key).getD default)
  | _ => .error .attributeError

/-- Python subscript j[key] with a string key: KeyError when the key is
missing, TypeError when the receiver is not a dictionary. -/
def Json.item (j : Json) (key : String) : Except PyError Json :=
  match j with
  | .obj fields =>
      match Json.lookupField fields key with
      | some v => .ok v
      | none => .error (.keyError key)
  | _ => .error .typeError

/-- Python subscript j[i] with a non-negative integer index: list indexing
with IndexError when out of range, one-character string for string indexing,
KeyError for a dictionary (our object keys are strings, so an integer key is
never present), TypeError otherwise. -/
def Json.itemAt (j : Json) (i : Nat) : Except PyError Json :=
  match j with
  | .arr items =>
      match items.get? i with
      | some v => .ok v
      | none => .error .indexError
  | .str s =>
      match s.data.get? i with
      | some ch => .ok (.str (String.mk [ch]))
      | none => .error .indexError
  | .obj _ => .error (.keyError (toString i))
  | _ => .error .typeError

/-- Python truthiness of a JSON value. -/
def Json.truthy : Json → Bool
  | .null => false
  | .bool b => b
  | .num n => decide (n ≠ 0)
  | .str s => !s.isEmpty
  | .arr items => !items.isEmpty
  | .obj fields => !fields.isEmpty

/-- Python iteration over a JSON value: list elements, dictionary keys,
characters of a string; TypeError for non-iterables. -/
def Json.elems : Json → Except PyError (List Json)
  | .arr items => .ok items
  | .obj fields => .ok (fields.map (fun kv => Json.str kv.fst))
  | .str s => .ok (s.data.map (fun ch => Json.str (String.mk [ch])))
  | _ => .error .typeError

/-- One HTTP request as passed to the aiohttp session. -/
structure HttpRequest where
  method : String
  url : String
  data : Option Json
  headers : List (String × String)
deriving Repr

/-- One HTTP response: status code, decoded JSON body (as returned by
response.json()) and raw text body (as returned by response.text()). -/
structure HttpResponse where
  status : Nat
  jsonBody : Json
  textBody : String
deriving Repr

/-- What the underlying session does with a request: it answers after
elapsed seconds, or fails at the transport level (aiohttp.ClientError). -/
inductive SessionResult where
  | responds (elapsed : Nat) (response : HttpResponse)
  | clientError
deriving Repr

/-- The aiohttp client session, as a deterministic map from requests. -/
def Session := HttpRequest → SessionResult

/-- The client state: the fields set in BrinkHomeCloud.__init__. -/
structure BrinkHomeCloud where
  timeout : Nat
  headers : List (String × String)
  token_exists : Option Bool
  http_session : Session
  username : String
  password : String

/-- Base URL of the portal API (const.API_URL). -/
def API_URL : String := "https://www.brink-home.com/portal/api/portal/"

/-- The fixed headers set in __init__. -/
def defaultHeaders : List (String × String) :=
  [("X-Requested-With", "XMLHttpRequest"),
   ("User-Agent", "okhttp/3.11.0"),
   ("Content-Type", "application/json; charset=UTF-8")]

/-- BrinkHomeCloud.__init__: stores the session and the credentials, sets
the fixed headers, the 10 second timeout, and token_exists = None. -/
def BrinkHomeCloud.init (session : Session) (username password : String) :
    BrinkHomeCloud :=
  { timeout := 10
    headers := defaultHeaders
    token_exists := none
    http_session := session
    username := username
    password := password }

/-- BrinkHomeCloud._api_call: one request under the timeout, then
raise_for_status. Returns the response together with the singleton list of
requests issued. A timeout beats the status check because raise_for_status
runs only after the timeout block completes. -/
def BrinkHomeCloud.api_call (c : BrinkHomeCloud) (url method : String)
    (data : Option Json) : Except PyError HttpResponse × List HttpRequest :=
  let req : HttpRequest :=
    { method := method, url := url, data := data, headers := c.headers }
  match c.http_session req with
  | .clientError => (.error .transportError, [req])
  | .responds elapsed r =>
      if c.timeout < elapsed then (.error .timeoutError, [req])
      else if 400 ≤ r.status then (.error (.statusError r.status), [req])
      else (.ok r, [req])

/-- Result of one public method call: the value or the propagated
exception, the client state afterwards, and the requests issued. -/
structure CallResult (α : Type) where
  result : Except PyError α
  state : BrinkHomeCloud
  trace : List HttpRequest

/-- The request that login issues: POST of the credential body to the
UserLogon path with the fixed headers. -/
def login_request (c : BrinkHomeCloud) : HttpRequest :=
  { method := "POST"
    url := API_URL ++ "UserLogon"
    data := some (Json.obj
      [("UserName", Json.str c.username), ("Password", Json.str c.password)])
    headers := c.headers }

/-- BrinkHomeCloud.login: POSTs the credentials, decodes the JSON body and
sets token_exists to True; on any error token_exists is untouched. -/
def BrinkHomeCloud.login (c : BrinkHomeCloud) : CallResult Json :=
  let data := Json.obj
    [("UserName", Json.str c.username), ("Password", Json.str c.password)]
  let url := API_URL ++ "UserLogon"
  match c.api_call url ("POST") (some data) with
  | (.error e, tr) => { result := .error e, state := c, trace := tr }
  | (.ok resp, tr) =>
      { result := .ok resp.jsonBody
        state := { c with token_exists := some true }
        trace := tr }

/-- One normalized system record produced by get_systems. -/
structure SystemRecord where
  system_id : Json
  gateway_id : Json
  name : Json
deriving Repr

/-- The loop body of get_systems on the decoded list. -/
def map_systems : List Json → Except PyError (List SystemRecord)
  | [] => .ok []
  | system :: rest => do
      let sid ← system.item ("id")
      let gid ← system.item ("gatewayId")
      let nm ← system.item ("name")
      let tail ← map_systems rest
      pure ({ system_id := sid, gateway_id := gid, name := nm } :: tail)

/-- BrinkHomeCloud.get_systems: GETs the system list and maps every entry
to a SystemRecord, in response order. -/
def BrinkHomeCloud.get_systems (c : BrinkHomeCloud) :
    CallResult (List SystemRecord) :=
  let url := API_URL ++ "GetSystemList"
  match c.api_call url ("GET") none with
  | (.error e, tr) => { result := .error e, state := c, trace := tr }
  | (.ok resp, tr) =>
      { result := resp.jsonBody.elems >>= map_systems
        state := c
        trace := tr }

/-- One selectable option kept by __get_values. -/
structure ValueOption where
  value : Json
  text : Json
deriving Repr

/-- The loop of BrinkHomeCloud.__get_values over the listItems entries:
keeps exactly the entries whose isSelectable value is truthy, mapping each
to its value and displayText. -/
def extract_values : List Json → Except PyError (List ValueOption)
  | [] => .ok []
  | value :: rest => do
      let sel ← value.item ("isSelectable")
      if sel.truthy then
        let v ← value.item ("value")
        let txt ← value.item ("displayText")
        let tail ← extract_values rest
        pure ({ value := v, text := txt } :: tail)
      else extract_values rest

/-- BrinkHomeCloud.__get_values: reads listItems and filters it. -/
def get_values (t : Json) : Except PyError (List ValueOption) := do
  let values ← t.item ("listItems")
  let items ← values.elems
  extract_values items

/-- One normalized parameter descriptor produced by __get_type. -/
structure ParamType where
  name : Json
  value_id : Json
  value : Json
  values : List ValueOption
deriving Repr

/-- BrinkHomeCloud.__get_type: normalizes one raw descriptor. -/
def get_type (t : Json) : Except PyError ParamType := do
  let nm ← t.item ("name")
  let vid ← t.item ("valueId")
  let v ← t.item ("value")
  let vals ← get_values t
  pure { name := nm, value_id := vid, value := v, values := vals }

/-- The description bundle returned by get_description_values. -/
structure DescriptionResult where
  ventilation : ParamType
  mode : ParamType
deriving Repr

/-- The pure part of get_description_values on the decoded body: descend
menuItems, pages[0], parameterDescriptors, take index 0 as ventilation and
index 1 as mode, and normalize both. -/
def describe_body (result : Json) : Except PyError DescriptionResult := do
  let menu_items ← result.get ("menuItems") (Json.arr [])
  let pages ← menu_items.get ("pages") (Json.arr [])
  let home_page ← pages.itemAt 0
  let parameters ← home_page.get ("parameterDescriptors") (Json.arr [])
  let ventilation ← parameters.itemAt 0
  let mode ← parameters.itemAt 1
  let vt ← get_type ventilation
  let mt ← get_type mode
  pure { ventilation := vt, mode := mt }

/-- BrinkHomeCloud.get_description_values: GET the parameter values and
flatten them into the description bundle. -/
def BrinkHomeCloud.get_description_values (c : BrinkHomeCloud)
    (system_id gateway_id : String) : CallResult DescriptionResult :=
  let url := API_URL ++ "GetParameterValues?GatewayId=" ++ gateway_id
    ++ "&SystemId=" ++ system_id
  match c.api_call url ("GET") none with
  | (.error e, tr) => { result := .error e, state := c, trace := tr }
  | (.ok resp, tr) =>
      { result := describe_body resp.jsonBody, state := c, trace := tr }

/-- The request body built by set_ventilation_value: two bundled writes,
mode forced to "1" first, then the requested ventilation value, with a
dependent read of both value ids. -/
def set_ventilation_data (system_id gateway_id mode ventilation : Json) :
    Except PyError Json := do
  let mode_value_id ← mode.item ("value_id")
  let ventilation_value_id ← ventilation.item ("value_id")
  let ventilation_value ← ventilation.item ("value")
  pure (Json.obj
    [("GatewayId", gateway_id),
     ("SystemId", system_id),
     ("WriteParameterValues", Json.arr
       [Json.obj [("ValueId", mode_value_id), ("Value", Json.str ("1"))],
        Json.obj [("ValueId", ventilation_value_id),
                  ("Value", ventilation_value)]]),
     ("SendInOneBundle", Json.bool true),
     ("DependendReadValuesAfterWrite", Json.arr
       [ventilation_value_id, mode_value_id])])

/-- BrinkHomeCloud.set_ventilation_value: builds the two-entry write body
and POSTs it; returns the raw response text. -/
def BrinkHomeCloud.set_ventilation_value (c : BrinkHomeCloud)
    (system_id gateway_id mode ventilation : Json) : CallResult String :=
  match set_ventilation_data system_id gateway_id mode ventilation with
  | .error e => { result := .error e, state := c, trace := [] }
  | .ok data =>
      let url := API_URL ++ "WriteParameterValuesAsync"
      match c.api_call url ("POST") (some data) with
      | (.error e, tr) => { result := .error e, state := c, trace := tr }
      | (.ok resp, tr) =>
          { result := .ok resp.textBody, state := c, trace := tr }

/-- The request body built by set_mode_value: one write of the mode value
with a dependent read of its value id. -/
def set_mode_data (system_id gateway_id mode : Json) :
    Except PyError Json := do
  let mode_value_id ← mode.item ("value_id")
  let mode_value ← mode.item ("value")
  pure (Json.obj
    [("GatewayId", gateway_id),
     ("SystemId", system_id),
     ("WriteParameterValues", Json.arr
       [Json.obj [("ValueId", mode_value_id), ("Value", mode_value)]]),
     ("SendInOneBundle", Json.bool true),
     ("DependendReadValuesAfterWrite", Json.arr [mode_value_id])])

/-- BrinkHomeCloud.set_mode_value: builds the single-entry write body and
POSTs it; returns the raw response text. -/
def BrinkHomeCloud.set_mode_value (c : BrinkHomeCloud)
    (system_id gateway_id mode : Json) : CallResult String :=
  match set_mode_data system_id gateway_id mode with
  | .error e => { result := .error e, state := c, trace := [] }
  | .ok data =>
      let url := API_URL ++ "WriteParameterValuesAsync"
      match c.api_call url ("POST") (some data) with
      | (.error e, tr) => { result := .error e, state := c, trace := tr }
      | (.ok resp, tr) =>
          { result := .ok resp.textBody, state := c, trace := tr }

/-! Helper lemmas about the HTTP layer. -/

/-- Whatever the session does, one call to api_call issues exactly the one
request built from its arguments and the client headers. -/
theorem BrinkHomeCloud.api_call_trace (c : BrinkHomeCloud)
    (url method : String) (data : Option Json) :
    (c.api_call url method data).snd =
      [{ method := method, url := url, data := data, headers := c.headers }] := by
  unfold BrinkHomeCloud.api_call
  cases h : c.http_session
      { method := method, url := url, data := data, headers := c.headers } with
  | clientError => simp [h]
  | responds elapsed r =>
      by_cases h1 : c.timeout < elapsed
      · simp [h, h1]
      · by_cases h2 : 400 ≤ r.status <;> simp [h, h1, h2]

/-- A fast enough 2xx or 3xx response makes api_call return it. -/
theorem BrinkHomeCloud.api_call_responds (c : BrinkHomeCloud)
    (url method : String) (data : Option Json) (e : Nat) (r : HttpResponse)
    (hsess : c.http_session
      { method := method, url := url, data := data, headers := c.headers } =
        .responds e r)
    (he : e ≤ c.timeout) (hst : r.status < 400) :
    c.api_call url method data =
      (.ok r,
       [{ method := method, url := url, data := data, headers := c.headers }]) := by
  unfold BrinkHomeCloud.api_call
  simp [hsess, Nat.not_lt.mpr he, Nat.not_le.mpr hst]

/-- A response slower than the timeout makes api_call fail with the
timeout error. -/
theorem BrinkHomeCloud.api_call_timeout (c : BrinkHomeCloud)
    (url method : String) (data : Option Json) (e : Nat) (r : HttpResponse)
    (hsess : c.http_session
      { method := method, url := url, data := data, headers := c.headers } =
        .responds e r)
    (he : c.timeout < e) :
    c.api_call url method data =
      (.error .timeoutError,
       [{ method := method, url := url, data := data, headers := c.headers }]) := by
  unfold BrinkHomeCloud.api_call
  simp [hsess, he]

/-- A fast enough response with status at least 400 makes api_call fail
with the status error. -/
theorem BrinkHomeCloud.api_call_status (c : BrinkHomeCloud)
    (url method : String) (data : Option Json) (e : Nat) (r : HttpResponse)
    (hsess : c.http_session
      { method := method, url := url, data := data, headers := c.headers } =
        .responds e r)
    (he : e ≤ c.timeout) (hst : 400 ≤ r.status) :
    c.api_call url method data =
      (.error (.statusError r.status),
       [{ method := method, url := url, data := data, headers := c.headers }]) := by
  unfold BrinkHomeCloud.api_call
  simp [hsess, Nat.not_lt.mpr he, hst]

/-! Canonical encodings of the raw response entries the claims range
over, together with evaluation lemmas for them. -/

/-- One raw listItems entry of a parameter descriptor. -/
structure ListItem where
  isSelectable : Bool
  value : Json
  displayText : Json

/-- Its JSON form inside the parameter-values response. -/
def encodeItem (li : ListItem) : Json :=
  Json.obj [("isSelectable", Json.bool li.isSelectable),
            ("value", li.value), ("displayText", li.displayText)]

theorem encodeItem_isSelectable (li : ListItem) :
    (encodeItem li).item ("isSelectable") = .ok (Json.bool li.isSelectable) :=
  rfl

theorem encodeItem_value (li : ListItem) :
    (encodeItem li).item ("value") = .ok li.value := rfl

theorem encodeItem_displayText (li : ListItem) :
    (encodeItem li).item ("displayText") = .ok li.displayText := rfl

/-- The output record a kept entry is mapped to. -/
def itemOption (li : ListItem) : ValueOption :=
  { value := li.value, text := li.displayText }

/-- The __get_values loop on encoded entries is exactly filter (on the
isSelectable flag) followed by map (to value and displayText). -/
theorem extract_values_encode (raw : List ListItem) :
    extract_values (raw.map encodeItem) =
      .ok ((raw.filter (fun li => li.isSelectable)).map itemOption) := by
  induction raw with
  | nil => rfl
  | cons li rest ih =>
      cases h : li.isSelectable with
      | false =>
          simp [extract_values, encodeItem_isSelectable, Json.truthy, h, ih,
            List.filter_cons, Bind.bind, Except.bind]
      | true =>
          simp [extract_values, encodeItem_isSelectable, encodeItem_value,
            encodeItem_displayText, Json.truthy, h, ih, List.filter_cons,
            itemOption, Bind.bind, Except.bind, pure, Except.pure]

/-- __get_values on a descriptor whose listItems is a list of encoded
entries. -/
theorem get_values_encode (t : Json) (raw : List ListItem)
    (h : t.item ("listItems") = .ok (Json.arr (raw.map encodeItem))) :
    get_values t =
      .ok ((raw.filter (fun li => li.isSelectable)).map itemOption) := by
  simp [get_values, h, Json.elems, extract_values_encode, Bind.bind,
    Except.bind]

/-- Claim C3: for a parameter descriptor, the values list produced by the
__get_values helper of get_description_values is exactly the listItems
entries whose isSelectable flag is true, in order, each mapped to a
record of its value and its displayText; entries with isSelectable false
are dropped. -/
theorem C3_selectable_filter (t : Json) (raw : List ListItem)
    (h : t.item ("listItems") = .ok (Json.arr (raw.map encodeItem))) :
    get_values t =
      .ok ((raw.filter (fun li => li.isSelectable)).map itemOption) :=
  get_values_encode t raw h

/-- A member of a list that satisfies the filter predicate has a position
in the filtered list. -/
theorem getElem?_filter_of_mem {α : Type} (p : α → Bool) (l : List α) (a : α)
    (ha : a ∈ l) (hp : p a = true) : ∃ k : Nat, (l.filter p)[k]? = some a := by
  have hmem : a ∈ l.filter p := List.mem_filter.mpr ⟨ha, hp⟩
  obtain ⟨n, hn⟩ := List.get_of_mem hmem
  exact ⟨n.val, by simp [List.getElem?_eq_getElem n.isLt, ← hn]⟩

/-- Filtering preserves the relative order of two kept elements. -/
theorem filter_pair_order {α : Type} (p : α → Bool) :
    ∀ (l : List α) (i j : Nat) (hij : i < j) (hj : j < l.length),
      p (l.get ⟨i, hij.trans hj⟩) = true → p (l.get ⟨j, hj⟩) = true →
      ∃ i2 j2 : Nat, i2 < j2 ∧
        (l.filter p)[i2]? = some (l.get ⟨i, hij.trans hj⟩) ∧
        (l.filter p)[j2]? = some (l.get ⟨j, hj⟩) := by
  intro l
  induction l with
  | nil => intro i j hij hj; simp at hj
  | cons a t ih =>
      intro i j hij hj hpi hpj
      obtain ⟨j1, rfl⟩ : ∃ j1, j = j1 + 1 :=
        ⟨j - 1, by omega⟩
      have hj1 : j1 < t.length := by
        simpa using Nat.lt_of_succ_lt_succ hj
      cases i with
      | zero =>
          have hpa : p a = true := hpi
          have hget : (a :: t).get ⟨j1 + 1, hj⟩ = t.get ⟨j1, hj1⟩ := rfl
          obtain ⟨k, hk⟩ := getElem?_filter_of_mem p t (t.get ⟨j1, hj1⟩)
            (List.get_mem t j1 hj1) (by rw [← hget]; exact hpj)
          refine ⟨0, k + 1, Nat.succ_pos k, ?_, ?_⟩
          · simp [List.filter_cons, hpa]
          · simp [List.filter_cons, hpa, hget, hk]
      | succ i1 =>
          have hij1 : i1 < j1 := Nat.lt_of_succ_lt_succ hij
          have hgi : (a :: t).get ⟨i1 + 1, hij.trans hj⟩ =
              t.get ⟨i1, hij1.trans hj1⟩ := rfl
          have hgj : (a :: t).get ⟨j1 + 1, hj⟩ = t.get ⟨j1, hj1⟩ := rfl
          obtain ⟨i2, j2, hlt, h1, h2⟩ := ih i1 j1 hij1 hj1
            (by rw [← hgi]; exact hpi) (by rw [← hgj]; exact hpj)
          cases hpa : p a with
          | true =>
              refine ⟨i2 + 1, j2 + 1, Nat.succ_lt_succ hlt, ?_, ?_⟩
              · simp [List.filter_cons, hpa, hgi, h1]
              · simp [List.filter_cons, hpa, hgj, h2]
          | false =>
              refine ⟨i2, j2, hlt, ?_, ?_⟩
              · simp [List.filter_cons, hpa, hgi, h1]
              · simp [List.filter_cons, hpa, hgj, h2]

/-- Claim C10: the values list produced by __get_values preserves the
relative order of the selectable entries of listItems: when selectable
entry at position i precedes selectable entry at position j, the records
they map to occupy positions in the same relative order in the output. -/
theorem C10_order_preserved (t : Json) (raw : List ListItem)
    (h : t.item ("listItems") = .ok (Json.arr (raw.map encodeItem)))
    (i j : Nat) (hij : i < j) (hj : j < raw.length)
    (hsi : (raw.get ⟨i, hij.trans hj⟩).isSelectable = true)
    (hsj : (raw.get ⟨j, hj⟩).isSelectable = true) :
    ∃ out, get_values t = .ok out ∧ ∃ i2 j2 : Nat, i2 < j2 ∧
      out[i2]? = some (itemOption (raw.get ⟨i, hij.trans hj⟩)) ∧
      out[j2]? = some (itemOption (raw.get ⟨j, hj⟩)) := by
  refine ⟨_, get_values_encode t raw h, ?_⟩
  obtain ⟨i2, j2, hlt, h1, h2⟩ :=
    filter_pair_order (fun li => li.isSelectable) raw i j hij hj hsi hsj
  exact ⟨i2, j2, hlt, by simp [List.getElem?_map, h1],
    by simp [List.getElem?_map, h2]⟩

/-- Claim C9: get_systems, get_description_values, set_ventilation_value
and set_mode_value leave every field of the client unchanged, for every
client, every argument and every session behaviour; token_exists is
written only by login, and login either leaves the state unchanged (on
error) or only sets token_exists to true. -/
theorem C9_frame_conditions :
    (∀ c : BrinkHomeCloud, (c.get_systems).state = c)
    ∧ (∀ (c : BrinkHomeCloud) (sid gid : String),
        (c.get_description_values sid gid).state = c)
    ∧ (∀ (c : BrinkHomeCloud) (sid gid mode ventilation : Json),
        (c.set_ventilation_value sid gid mode ventilation).state = c)
    ∧ (∀ (c : BrinkHomeCloud) (sid gid mode : Json),
        (c.set_mode_value sid gid mode).state = c)
    ∧ (∀ c : BrinkHomeCloud,
        (c.login).state = c ∨
        (c.login).state = { c with token_exists := some true }) := by
  refine ⟨?_, ?_, ?_, ?_, ?_⟩
  · intro c
    unfold BrinkHomeCloud.get_systems
    dsimp only
    split <;> rfl
  · intro c sid gid
    unfold BrinkHomeCloud.get_description_values
    dsimp only
    split <;> rfl
  · intro c sid gid mode ventilation
    unfold BrinkHomeCloud.set_ventilation_value
    split
    · rfl
    · dsimp only
      split <;> rfl
  · intro c sid gid mode
    unfold BrinkHomeCloud.set_mode_value
    split
    · rfl
    · dsimp only
      split <;> rfl
  · intro c
    unfold BrinkHomeCloud.login
    dsimp only
    split
    · exact Or.inl rfl
    · exact Or.inr rfl

/-- One raw entry of the system list response. -/
structure RawSystem where
  id : Json
  gatewayId : Json
  name : Json

/-- Its JSON form inside the system list response. -/
def encodeSystem (s : RawSystem) : Json :=
  Json.obj [("id", s.id), ("gatewayId", s.gatewayId), ("name", s.name)]

theorem encodeSystem_id (s : RawSystem) :
    (encodeSystem s).item ("id") = .ok s.id := rfl

theorem encodeSystem_gatewayId (s : RawSystem) :
    (encodeSystem s).item ("gatewayId") = .ok s.gatewayId := rfl

theorem encodeSystem_name (s : RawSystem) :
    (encodeSystem s).item ("name") = .ok s.name := rfl

/-- The record a raw system entry is normalized to. -/
def systemRecordOf (s : RawSystem) : SystemRecord :=
  { system_id := s.id, gateway_id := s.gatewayId, name := s.name }

/-- The get_systems loop on encoded entries renames the three fields of
every entry, keeping the order. -/
theorem map_systems_encode (raw : List RawSystem) :
    map_systems (raw.map encodeSystem) = .ok (raw.map systemRecordOf) := by
  induction raw with
  | nil => rfl
  | cons s rest ih =>
      simp [map_systems, encodeSystem_id, encodeSystem_gatewayId,
        encodeSystem_name, ih, systemRecordOf, Bind.bind, Except.bind, pure,
        Except.pure]

/-- Claim C7: on a system-list response with N entries, get_systems
returns exactly the N normalized records, in response order, mapping id to
system_id, gatewayId to gateway_id and name to name. -/
theorem C7_systems_mapping (c : BrinkHomeCloud) (e st : Nat) (txt : String)
    (raw : List RawSystem)
    (hsess : ∀ req, c.http_session req =
      .responds e { status := st, jsonBody := Json.arr (raw.map encodeSystem),
                    textBody := txt })
    (he : e ≤ c.timeout) (hst : st < 400) :
    (c.get_systems).result = .ok (raw.map systemRecordOf) := by
  unfold BrinkHomeCloud.get_systems
  dsimp only
  rw [BrinkHomeCloud.api_call_responds c (API_URL ++ "GetSystemList") ("GET")
    none e _ (hsess _) he hst]
  simp [Json.elems, map_systems_encode, Bind.bind, Except.bind]

/-- A parameter-values response body whose home page carries the
descriptor list d0 :: d1 :: rest. -/
def paramBody (d0 d1 : Json) (rest morePages : List Json) : Json :=
  Json.obj [("menuItems", Json.obj
    [("pages", Json.arr (Json.obj
      [("parameterDescriptors", Json.arr (d0 :: d1 :: rest))] :: morePages))])]

/-- Claim C1: get_description_values descends
menuItems.pages[0].parameterDescriptors and takes the descriptor at index
0 as the ventilation descriptor and the one at index 1 as the mode
descriptor, whatever the two descriptors are: the choice is purely
positional, with no check of names or meanings. -/
theorem C1_positional (c : BrinkHomeCloud) (sid gid : String)
    (d0 d1 : Json) (rest morePages : List Json) (e st : Nat) (txt : String)
    (v m : ParamType)
    (hsess : ∀ req, c.http_session req =
      .responds e { status := st, jsonBody := paramBody d0 d1 rest morePages,
                    textBody := txt })
    (he : e ≤ c.timeout) (hst : st < 400)
    (h0 : get_type d0 = .ok v) (h1 : get_type d1 = .ok m) :
    (c.get_description_values sid gid).result =
      .ok { ventilation := v, mode := m } := by
  unfold BrinkHomeCloud.get_description_values
  dsimp only
  rw [BrinkHomeCloud.api_call_responds c
    (API_URL ++ "GetParameterValues?GatewayId=" ++ gid ++ "&SystemId=" ++ sid)
    ("GET") none e _ (hsess _) he hst]
  simp [describe_body, paramBody, Json.get, Json.lookupField, Json.itemAt,
    h0, h1, Bind.bind, Except.bind, pure, Except.pure]

/-- A well-formed descriptor argument for the write methods: a dictionary
carrying the value_id and value keys, as the records produced by
get_description_values do. -/
def paramArg (vid v : Json) : Json :=
  Json.obj [("value_id", vid), ("value", v)]

theorem paramArg_value_id (vid v : Json) :
    (paramArg vid v).item ("value_id") = .ok vid := rfl

theorem paramArg_value (vid v : Json) :
    (paramArg vid v).item ("value") = .ok v := rfl

/-- Whenever the body build succeeds, set_ventilation_value issues exactly
one POST of that body to WriteParameterValuesAsync. -/
theorem set_ventilation_value_trace (c : BrinkHomeCloud)
    (sid gid mode ventilation body : Json)
    (hdata : set_ventilation_data sid gid mode ventilation = .ok body) :
    (c.set_ventilation_value sid gid mode ventilation).trace =
      [{ method := "POST", url := API_URL ++ "WriteParameterValuesAsync",
         data := some body, headers := c.headers }] := by
  unfold BrinkHomeCloud.set_ventilation_value
  rw [hdata]
  dsimp only
  have htr := BrinkHomeCloud.api_call_trace c
    (API_URL ++ "WriteParameterValuesAsync") ("POST") (some body)
  rcases hac : c.api_call (API_URL ++ "WriteParameterValuesAsync") ("POST")
      (some body) with ⟨res, tr⟩
  rw [hac] at htr
  cases res <;> simp_all

/-- Claim C2: for every mode and ventilation argument carrying value_id
and value, the body built by set_ventilation_value holds exactly two
write entries, the first pairing the mode value id with the literal value
"1" and the second pairing the ventilation value id with the supplied
ventilation value, whatever that value is; SendInOneBundle is true and
DependendReadValuesAfterWrite lists both value ids; and the method issues
exactly one POST of this body. -/
theorem C2_write_bundle (c : BrinkHomeCloud)
    (sid gid mode ventilation mvid vvid vval : Json)
    (hm : mode.item ("value_id") = .ok mvid)
    (hv : ventilation.item ("value_id") = .ok vvid)
    (hval : ventilation.item ("value") = .ok vval) :
    set_ventilation_data sid gid mode ventilation = .ok (Json.obj
      [("GatewayId", gid), ("SystemId", sid),
       ("WriteParameterValues", Json.arr
         [Json.obj [("ValueId", mvid), ("Value", Json.str ("1"))],
          Json.obj [("ValueId", vvid), ("Value", vval)]]),
       ("SendInOneBundle", Json.bool true),
       ("DependendReadValuesAfterWrite", Json.arr [vvid, mvid])])
    ∧ (c.set_ventilation_value sid gid mode ventilation).trace =
      [{ method := "POST", url := API_URL ++ "WriteParameterValuesAsync",
         data := some (Json.obj
           [("GatewayId", gid), ("SystemId", sid),
            ("WriteParameterValues", Json.arr
              [Json.obj [("ValueId", mvid), ("Value", Json.str ("1"))],
               Json.obj [("ValueId", vvid), ("Value", vval)]]),
            ("SendInOneBundle", Json.bool true),
            ("DependendReadValuesAfterWrite", Json.arr [vvid, mvid])]),
         headers := c.headers }] := by
  constructor
  · simp [set_ventilation_data, hm, hv, hval, Bind.bind, Except.bind, pure,
      Except.pure]
  · apply set_ventilation_value_trace
    simp [set_ventilation_data, hm, hv, hval, Bind.bind, Except.bind, pure,
      Except.pure]

/-- Claim C8: login issues exactly one POST to the UserLogon path with
the body pairing UserName with the stored username and Password with the
stored password; on a 2xx response it returns the decoded JSON body
unchanged and sets token_exists to true, leaving every other field
unchanged. -/
theorem C8_login (c : BrinkHomeCloud) (e st : Nat) (jbody : Json)
    (txt : String)
    (hsess : c.http_session (login_request c) =
      .responds e { status := st, jsonBody := jbody, textBody := txt })
    (he : e ≤ c.timeout) (hst : st < 400) :
    (c.login).result = .ok jbody
    ∧ (c.login).state = { c with token_exists := some true }
    ∧ (c.login).trace = [login_request c]
    ∧ (login_request c).method = "POST"
    ∧ (login_request c).url = API_URL ++ "UserLogon"
    ∧ (login_request c).data = some (Json.obj
        [("UserName", Json.str c.username),
         ("Password", Json.str c.password)]) := by
  have hs2 : c.http_session
      { method := "POST", url := API_URL ++ "UserLogon",
        data := some (Json.obj
          [("UserName", Json.str c.username),
           ("Password", Json.str c.password)]),
        headers := c.headers } =
      SessionResult.responds e
        { status := st, jsonBody := jbody, textBody := txt } := hsess
  have hl : c.login =
      { result := .ok jbody, state := { c with token_exists := some true },
        trace := [login_request c] } := by
    unfold BrinkHomeCloud.login
    dsimp only
    rw [BrinkHomeCloud.api_call_responds c (API_URL ++ "UserLogon") ("POST")
      (some (Json.obj
        [("UserName", Json.str c.username),
         ("Password", Json.str c.password)])) e _ hs2 he hst]
    rfl
  exact ⟨by rw [hl], by rw [hl], by rw [hl], rfl, rfl, rfl⟩

/-- Claim C5: under a session answering within the timeout with a status
of at least 400, api_call fails with that status error, and so does every
public method: login, get_systems, get_description_values,
set_ventilation_value and set_mode_value; none of them returns a decoded
result. -/
theorem C5_status_failure (c : BrinkHomeCloud) (e : Nat) (r : HttpResponse)
    (hsess : ∀ req, c.http_session req = .responds e r)
    (he : e ≤ c.timeout) (hst : 400 ≤ r.status) :
    (∀ (url method : String) (data : Option Json),
      (c.api_call url method data).fst = .error (.statusError r.status))
    ∧ (c.login).result = .error (.statusError r.status)
    ∧ (c.get_systems).result = .error (.statusError r.status)
    ∧ (∀ sid gid : String, (c.get_description_values sid gid).result =
        .error (.statusError r.status))
    ∧ (∀ sid gid mvid mval vvid vval : Json,
        (c.set_ventilation_value sid gid (paramArg mvid mval)
          (paramArg vvid vval)).result = .error (.statusError r.status))
    ∧ (∀ sid gid mvid mval : Json,
        (c.set_mode_value sid gid (paramArg mvid mval)).result =
          .error (.statusError r.status)) := by
  refine ⟨?_, ?_, ?_, ?_, ?_, ?_⟩
  · intro url method data
    rw [BrinkHomeCloud.api_call_status c url method data e r (hsess _) he hst]
  · unfold BrinkHomeCloud.login
    dsimp only
    rw [BrinkHomeCloud.api_call_status c _ ("POST") _ e r (hsess _) he hst]
  · unfold BrinkHomeCloud.get_systems
    dsimp only
    rw [BrinkHomeCloud.api_call_status c _ ("GET") none e r (hsess _) he hst]
  · intro sid gid
    unfold BrinkHomeCloud.get_description_values
    dsimp only
    rw [BrinkHomeCloud.api_call_status c _ ("GET") none e r (hsess _) he hst]
  · intro sid gid mvid mval vvid vval
    unfold BrinkHomeCloud.set_ventilation_value
    rw [show set_ventilation_data sid gid (paramArg mvid mval)
      (paramArg vvid vval) = .ok (Json.obj
        [("GatewayId", gid), ("SystemId", sid),
         ("WriteParameterValues", Json.arr
           [Json.obj [("ValueId", mvid), ("Value", Json.str ("1"))],
            Json.obj [("ValueId", vvid), ("Value", vval)]]),
         ("SendInOneBundle", Json.bool true),
         ("DependendReadValuesAfterWrite", Json.arr [vvid, mvid])])
      from rfl]
    dsimp only
    rw [BrinkHomeCloud.api_call_status c _ ("POST") _ e r (hsess _) he hst]
  · intro sid gid mvid mval
    unfold BrinkHomeCloud.set_mode_value
    rw [show set_mode_data sid gid (paramArg mvid mval) = .ok (Json.obj
        [("GatewayId", gid), ("SystemId", sid),
         ("WriteParameterValues", Json.arr
           [Json.obj [("ValueId", mvid), ("Value", mval)]]),
         ("SendInOneBundle", Json.bool true),
         ("DependendReadValuesAfterWrite", Json.arr [mvid])])
      from rfl]
    dsimp only
    rw [BrinkHomeCloud.api_call_status c _ ("POST") _ e r (hsess _) he hst]

/-- Claim C6: under a session slower than the timeout, api_call and every
public method fail with the timeout error, and the client state is left
exactly as it was; in particular a login that times out leaves
token_exists at its previous value. -/
theorem C6_timeout_failure (c : BrinkHomeCloud) (e : Nat) (r : HttpResponse)
    (hsess : ∀ req, c.http_session req = .responds e r)
    (he : c.timeout < e) :
    (∀ (url method : String) (data : Option Json),
      (c.api_call url method data).fst = .error .timeoutError)
    ∧ (c.login).result = .error .timeoutError
    ∧ (c.login).state = c
    ∧ (c.get_systems).result = .error .timeoutError
    ∧ (c.get_systems).state = c
    ∧ (∀ sid gid : String,
        (c.get_description_values sid gid).result = .error .timeoutError
        ∧ (c.get_description_values sid gid).state = c)
    ∧ (∀ sid gid mvid mval vvid vval : Json,
        (c.set_ventilation_value sid gid (paramArg mvid mval)
          (paramArg vvid vval)).result = .error .timeoutError
        ∧ (c.set_ventilation_value sid gid (paramArg mvid mval)
            (paramArg vvid vval)).state = c)
    ∧ (∀ sid gid mvid mval : Json,
        (c.set_mode_value sid gid (paramArg mvid mval)).result =
          .error .timeoutError
        ∧ (c.set_mode_value sid gid (paramArg mvid mval)).state = c) := by
  refine ⟨?_, ?_, ?_, ?_, ?_, ?_, ?_, ?_⟩
  · intro url method data
    rw [BrinkHomeCloud.api_call_timeout c url method data e r (hsess _) he]
  · unfold BrinkHomeCloud.login
    dsimp only
    rw [BrinkHomeCloud.api_call_timeout c _ ("POST") _ e r (hsess _) he]
  · unfold BrinkHomeCloud.login
    dsimp only
    rw [BrinkHomeCloud.api_call_timeout c _ ("POST") _ e r (hsess _) he]
  · unfold BrinkHomeCloud.get_systems
    dsimp only
    rw [BrinkHomeCloud.api_call_timeout c _ ("GET") none e r (hsess _) he]
  · unfold BrinkHomeCloud.get_systems
    dsimp only
    rw [BrinkHomeCloud.api_call_timeout c _ ("GET") none e r (hsess _) he]
  · intro sid gid
    unfold BrinkHomeCloud.get_description_values
    dsimp only
    rw [BrinkHomeCloud.api_call_timeout c _ ("GET") none e r (hsess _) he]
    exact ⟨rfl, rfl⟩
  · intro sid gid mvid mval vvid vval
    unfold BrinkHomeCloud.set_ventilation_value
    rw [show set_ventilation_data sid gid (paramArg mvid mval)
      (paramArg vvid vval) = .ok (Json.obj
        [("GatewayId", gid), ("SystemId", sid),
         ("WriteParameterValues", Json.arr
           [Json.obj [("ValueId", mvid), ("Value", Json.str ("1"))],
            Json.obj [("ValueId", vvid), ("Value", vval)]]),
         ("SendInOneBundle", Json.bool true),
         ("DependendReadValuesAfterWrite", Json.arr [vvid, mvid])])
      from rfl]
    dsimp only
    rw [BrinkHomeCloud.api_call_timeout c _ ("POST") _ e r (hsess _) he]
    exact ⟨rfl, rfl⟩
  · intro sid gid mvid mval
    unfold BrinkHomeCloud.set_mode_value
    rw [show set_mode_data sid gid (paramArg mvid mval) = .ok (Json.obj
        [("GatewayId", gid), ("SystemId", sid),
         ("WriteParameterValues", Json.arr
           [Json.obj [("ValueId", mvid), ("Value", mval)]]),
         ("SendInOneBundle", Json.bool true),
         ("DependendReadValuesAfterWrite", Json.arr [mvid])])
      from rfl]
    dsimp only
    rw [BrinkHomeCloud.api_call_timeout c _ ("POST") _ e r (hsess _) he]
    exact ⟨rfl, rfl⟩

/-- The structural (response-shape) errors: index, key, attribute and
type errors, as opposed to the HTTP-layer errors. -/
def PyError.structural : PyError → Bool
  | .keyError _ => true
  | .indexError => true
  | .attributeError => true
  | .typeError => true
  | .statusError _ => false
  | .timeoutError => false
  | .transportError => false

/-- The error kinds claim C4 names: index and key errors only. -/
def PyError.isIndexOrKey : PyError → Bool
  | .indexError => true
  | .keyError _ => true
  | _ => false

/-- An erring bind comes from an erring first step or an erring
continuation. -/
theorem bind_error {α β : Type} {x : Except PyError α}
    {f : α → Except PyError β} {e : PyError}
    (h : x >>= f = .error e) :
    x = .error e ∨ ∃ a, x = .ok a ∧ f a = .error e := by
  cases x with
  | error e1 =>
      simp only [Bind.bind, Except.bind, Except.error.injEq] at h
      exact Or.inl (by rw [h])
  | ok a =>
      simp only [Bind.bind, Except.bind] at h
      exact Or.inr ⟨a, rfl, h⟩

theorem get_error_structural (j : Json) (key : String)
    (default : Json) (e : PyError)
    (h : j.get key default = .error e) : e.structural = true := by
  cases j with
  | obj fields => simp [Json.get] at h
  | null => simp only [Json.get, Except.error.injEq] at h; subst h; rfl
  | bool b => simp only [Json.get, Except.error.injEq] at h; subst h; rfl
  | num n => simp only [Json.get, Except.error.injEq] at h; subst h; rfl
  | str s => simp only [Json.get, Except.error.injEq] at h; subst h; rfl
  | arr items => simp only [Json.get, Except.error.injEq] at h; subst h; rfl

theorem item_error_structural (j : Json) (key : String) (e : PyError)
    (h : j.item key = .error e) : e.structural = true := by
  cases j with
  | obj fields =>
      simp only [Json.item] at h
      cases hl : Json.lookupField fields key with
      | some v => rw [hl] at h; simp at h
      | none =>
          rw [hl] at h
          simp only [Except.error.injEq] at h
          subst h
          rfl
  | null => simp only [Json.item, Except.error.injEq] at h; subst h; rfl
  | bool b => simp only [Json.item, Except.error.injEq] at h; subst h; rfl
  | num n => simp only [Json.item, Except.error.injEq] at h; subst h; rfl
  | str s => simp only [Json.item, Except.error.injEq] at h; subst h; rfl
  | arr items => simp only [Json.item, Except.error.injEq] at h; subst h; rfl

theorem itemAt_error_structural (j : Json) (i : Nat) (e : PyError)
    (h : j.itemAt i = .error e) : e.structural = true := by
  cases j with
  | arr items =>
      simp only [Json.itemAt] at h
      cases hl : items.get? i with
      | some v => rw [hl] at h; simp at h
      | none =>
          rw [hl] at h
          simp only [Except.error.injEq] at h
          subst h
          rfl
  | str s =>
      simp only [Json.itemAt] at h
      cases hl : s.data.get? i with
      | some ch => rw [hl] at h; simp at h
      | none =>
          rw [hl] at h
          simp only [Except.error.injEq] at h
          subst h
          rfl
  | obj fields =>
      simp only [Json.itemAt, Except.error.injEq] at h; subst h; rfl
  | null => simp only [Json.itemAt, Except.error.injEq] at h; subst h; rfl
  | bool b => simp only [Json.itemAt, Except.error.injEq] at h; subst h; rfl
  | num n => simp only [Json.itemAt, Except.error.injEq] at h; subst h; rfl

theorem elems_error_structural (j : Json) (e : PyError)
    (h : j.elems = .error e) : e.structural = true := by
  cases j with
  | arr items => simp [Json.elems] at h
  | obj fields => simp [Json.elems] at h
  | str s => simp [Json.elems] at h
  | null => simp only [Json.elems, Except.error.injEq] at h; subst h; rfl
  | bool b => simp only [Json.elems, Except.error.injEq] at h; subst h; rfl
  | num n => simp only [Json.elems, Except.error.injEq] at h; subst h; rfl

theorem extract_values_error (l : List Json) (e : PyError)
    (h : extract_values l = .error e) : e.structural = true := by
  induction l with
  | nil => simp [extract_values] at h
  | cons x rest ih =>
      simp only [extract_values] at h
      rcases bind_error h with h1 | ⟨sel, hsel, h2⟩
      · exact item_error_structural x _ e h1
      · by_cases ht : sel.truthy = true
        · rw [if_pos ht] at h2
          rcases bind_error h2 with h3 | ⟨v, hv, h4⟩
          · exact item_error_structural x _ e h3
          · rcases bind_error h4 with h5 | ⟨txt, htxt, h6⟩
            · exact item_error_structural x _ e h5
            · rcases bind_error h6 with h7 | ⟨tail, htail, h8⟩
              · exact ih h7
              · simp [pure, Except.pure] at h8
        · rw [if_neg ht] at h2
          exact ih h2

theorem get_values_error (t : Json) (e : PyError)
    (h : get_values t = .error e) : e.structural = true := by
  simp only [get_values] at h
  rcases bind_error h with h1 | ⟨values, hv, h2⟩
  · exact item_error_structural t _ e h1
  · rcases bind_error h2 with h3 | ⟨items, hi, h4⟩
    · exact elems_error_structural values e h3
    · exact extract_values_error items e h4

theorem get_type_error (t : Json) (e : PyError)
    (h : get_type t = .error e) : e.structural = true := by
  simp only [get_type] at h
  rcases bind_error h with h1 | ⟨nm, hnm, h2⟩
  · exact item_error_structural t _ e h1
  · rcases bind_error h2 with h3 | ⟨vid, hvid, h4⟩
    · exact item_error_structural t _ e h3
    · rcases bind_error h4 with h5 | ⟨v, hv, h6⟩
      · exact item_error_structural t _ e h5
      · rcases bind_error h6 with h7 | ⟨vals, hvals, h8⟩
        · exact get_values_error t e h7
        · simp [pure, Except.pure] at h8

/-- Every error of the pure extraction of get_description_values is a
structural one: it can never be a status, timeout or transport error. -/
theorem describe_body_error (j : Json) (e : PyError)
    (h : describe_body j = .error e) : e.structural = true := by
  simp only [describe_body] at h
  rcases bind_error h with h1 | ⟨menu_items, hm, h2⟩
  · exact get_error_structural j _ _ e h1
  · rcases bind_error h2 with h3 | ⟨pages, hp, h4⟩
    · exact get_error_structural menu_items _ _ e h3
    · rcases bind_error h4 with h5 | ⟨home_page, hh, h6⟩
      · exact itemAt_error_structural pages 0 e h5
      · rcases bind_error h6 with h7 | ⟨parameters, hpar, h8⟩
        · exact get_error_structural home_page _ _ e h7
        · rcases bind_error h8 with h9 | ⟨ventilation, hv, h10⟩
          · exact itemAt_error_structural parameters 0 e h9
          · rcases bind_error h10 with h11 | ⟨mode, hmo, h12⟩
            · exact itemAt_error_structural parameters 1 e h11
            · rcases bind_error h12 with h13 | ⟨vt, hvt, h14⟩
              · exact get_type_error ventilation e h13
              · rcases bind_error h14 with h15 | ⟨mt, hmt, h16⟩
                · exact get_type_error mode e h15
                · simp [pure, Except.pure] at h16

/-- Claim C4, amended: for every 2xx response whose JSON shape deviates
from the expected menuItems/pages[0]/parameterDescriptors structure (the
extraction does not produce a result), get_description_values fails with
a structural error — an index, key, attribute or type error — that
propagates to the caller, and no normalized result is returned. -/
theorem C4_shape_failure (c : BrinkHomeCloud) (sid gid : String)
    (e st : Nat) (j : Json) (txt : String)
    (hsess : ∀ req, c.http_session req =
      .responds e { status := st, jsonBody := j, textBody := txt })
    (he : e ≤ c.timeout) (hst : st < 400)
    (hdev : ∀ d, describe_body j ≠ .ok d) :
    ∃ er, (c.get_description_values sid gid).result = .error er ∧
      er.structural = true := by
  have hres : (c.get_description_values sid gid).result = describe_body j := by
    unfold BrinkHomeCloud.get_description_values
    dsimp only
    rw [BrinkHomeCloud.api_call_responds c
      (API_URL ++ "GetParameterValues?GatewayId=" ++ gid ++ "&SystemId=" ++ sid)
      ("GET") none e _ (hsess _) he hst]
  cases hd : describe_body j with
  | ok d => exact absurd hd (hdev d)
  | error er => exact ⟨er, by rw [hres, hd], describe_body_error j er hd⟩

/-- A session constantly answering 200 with an empty JSON object: the
menuItems key is missing, a shape deviation of the kind the claim names. -/
def sessionC4 : Session := fun _ =>
  .responds 1 { status := 200, jsonBody := Json.obj [], textBody := "" }

/-- A client over that session. -/
def clientC4 : BrinkHomeCloud := BrinkHomeCloud.init sessionC4 ("user") ("pw")

/-- Counterexample to claim C4 as stated: on a response missing the
menuItems key, get_description_values fails with an attribute error (the
default [] list has no get method), which is neither an index error nor a
key error. -/
theorem C4_counterexample :
    (clientC4.get_description_values ("sys") ("gw")).result =
      .error PyError.attributeError ∧
    PyError.isIndexOrKey PyError.attributeError = false := ⟨rfl, rfl⟩

/-! Concrete fixtures used to instantiate the theorems. -/

/-- The non-selectable Off option of the spec example. -/
def itemOff : ListItem :=
  { isSelectable := false, value := Json.str ("0"),
    displayText := Json.str ("Off") }

/-- The selectable Low option of the spec example. -/
def itemLow : ListItem :=
  { isSelectable := true, value := Json.str ("1"),
    displayText := Json.str ("Low") }

/-- A second selectable option. -/
def itemHigh : ListItem :=
  { isSelectable := true, value := Json.str ("2"),
    displayText := Json.str ("High") }

def rawItems : List ListItem := [itemOff, itemLow]

def tDescriptor : Json := Json.obj
  [("listItems", Json.arr (rawItems.map encodeItem))]

/-- Witness for C3 at the spec example: the non-selectable Off entry is
dropped and only Low is kept. -/
theorem C3_selectable_filter_witness :
    get_values tDescriptor =
      .ok [{ value := Json.str ("1"), text := Json.str ("Low") }] :=
  C3_selectable_filter tDescriptor rawItems rfl

def rawItemsThree : List ListItem := [itemLow, itemOff, itemHigh]

def tDescriptorThree : Json := Json.obj
  [("listItems", Json.arr (rawItemsThree.map encodeItem))]

/-- Witness for C10: in a three-entry list the selectable entries at
positions 0 and 2 keep their relative order in the output. -/
theorem C10_order_preserved_witness :
    ∃ out, get_values tDescriptorThree = .ok out ∧ ∃ i2 j2 : Nat, i2 < j2 ∧
      out[i2]? = some (itemOption (rawItemsThree.get ⟨0, by decide⟩)) ∧
      out[j2]? = some (itemOption (rawItemsThree.get ⟨2, by decide⟩)) :=
  C10_order_preserved tDescriptorThree rawItemsThree rfl 0 2 (by decide)
    (by decide) rfl rfl

/-- A ventilation descriptor fixture. -/
def descVent : Json := Json.obj
  [("name", Json.str ("Ventilation")), ("valueId", Json.str ("v1")),
   ("value", Json.str ("1")),
   ("listItems", Json.arr (rawItems.map encodeItem))]

/-- A mode descriptor fixture. -/
def descMode : Json := Json.obj
  [("name", Json.str ("OperatingMode")), ("valueId", Json.str ("v2")),
   ("value", Json.str ("0")),
   ("listItems", Json.arr (rawItems.map encodeItem))]

def sessionC1 : Session := fun _ =>
  .responds 1 { status := 200, jsonBody := paramBody descVent descMode [] [],
                textBody := "" }

def clientC1 : BrinkHomeCloud := BrinkHomeCloud.init sessionC1 ("u") ("p")

/-- Witness for C1: on a concrete response the first descriptor lands in
the ventilation slot and the second in the mode slot. -/
theorem C1_positional_witness :
    (clientC1.get_description_values ("sys") ("gw")).result = .ok
      { ventilation :=
          { name := Json.str ("Ventilation"), value_id := Json.str ("v1"),
            value := Json.str ("1"),
            values := [{ value := Json.str ("1"),
                         text := Json.str ("Low") }] }
        mode :=
          { name := Json.str ("OperatingMode"), value_id := Json.str ("v2"),
            value := Json.str ("0"),
            values := [{ value := Json.str ("1"),
                         text := Json.str ("Low") }] } } :=
  C1_positional clientC1 ("sys") ("gw") descVent descMode [] [] 1 200 ("")
    _ _ (fun _ => rfl) (by decide) (by decide) rfl rfl

def clientC2 : BrinkHomeCloud := BrinkHomeCloud.init sessionC1 ("u") ("p")

/-- Witness for C2 at concrete arguments: the two write entries, the
bundle flag and the dependent reads of the built body. -/
theorem C2_write_bundle_witness :
    set_ventilation_data (Json.str ("s")) (Json.str ("g"))
        (paramArg (Json.str ("m1")) (Json.str ("3")))
        (paramArg (Json.str ("v1")) (Json.str ("2"))) = .ok (Json.obj
      [("GatewayId", Json.str ("g")), ("SystemId", Json.str ("s")),
       ("WriteParameterValues", Json.arr
         [Json.obj [("ValueId", Json.str ("m1")), ("Value", Json.str ("1"))],
          Json.obj [("ValueId", Json.str ("v1")),
                    ("Value", Json.str ("2"))]]),
       ("SendInOneBundle", Json.bool true),
       ("DependendReadValuesAfterWrite", Json.arr
         [Json.str ("v1"), Json.str ("m1")])])
    ∧ (clientC2.set_ventilation_value (Json.str ("s")) (Json.str ("g"))
        (paramArg (Json.str ("m1")) (Json.str ("3")))
        (paramArg (Json.str ("v1")) (Json.str ("2")))).trace =
      [{ method := "POST", url := API_URL ++ "WriteParameterValuesAsync",
         data := some (Json.obj
           [("GatewayId", Json.str ("g")), ("SystemId", Json.str ("s")),
            ("WriteParameterValues", Json.arr
              [Json.obj [("ValueId", Json.str ("m1")),
                         ("Value", Json.str ("1"))],
               Json.obj [("ValueId", Json.str ("v1")),
                         ("Value", Json.str ("2"))]]),
            ("SendInOneBundle", Json.bool true),
            ("DependendReadValuesAfterWrite", Json.arr
              [Json.str ("v1"), Json.str ("m1")])]),
         headers := clientC2.headers }] :=
  C2_write_bundle clientC2 (Json.str ("s")) (Json.str ("g"))
    (paramArg (Json.str ("m1")) (Json.str ("3")))
    (paramArg (Json.str ("v1")) (Json.str ("2")))
    (Json.str ("m1")) (Json.str ("v1")) (Json.str ("2")) rfl rfl rfl

/-- Witness for the amended C4 at the same deviating response as the
counterexample. -/
theorem C4_shape_failure_witness :
    ∃ er, (clientC4.get_description_values ("sys") ("gw")).result =
      .error er ∧ er.structural = true :=
  C4_shape_failure clientC4 ("sys") ("gw") 1 200 (Json.obj []) ("")
    (fun _ => rfl) (by decide) (by decide)
    (fun d h => by
      rw [show describe_body (Json.obj []) =
        Except.error PyError.attributeError from rfl] at h
      exact Except.noConfusion h)

def respC5 : HttpResponse :=
  { status := 403, jsonBody := Json.null, textBody := "" }

def sessionC5 : Session := fun _ => .responds 1 respC5

def clientC5 : BrinkHomeCloud := BrinkHomeCloud.init sessionC5 ("u") ("p")

/-- Witness for C5: a constant 403 session makes login and
get_description_values fail with the status error. -/
theorem C5_status_failure_witness :
    (clientC5.login).result = .error (PyError.statusError 403) ∧
    (clientC5.get_description_values ("s") ("g")).result =
      .error (PyError.statusError 403) := by
  have h := C5_status_failure clientC5 1 respC5 (fun _ => rfl) (by decide)
    (by decide)
  exact ⟨h.2.1, h.2.2.2.1 ("s") ("g")⟩

def sessionC6 : Session := fun _ => .responds 11 respC5

def clientC6 : BrinkHomeCloud := BrinkHomeCloud.init sessionC6 ("u") ("p")

/-- Witness for C6: a session that answers after 11 seconds makes login
fail with the timeout error and leaves the client state unchanged. -/
theorem C6_timeout_failure_witness :
    (clientC6.login).result = .error PyError.timeoutError ∧
    (clientC6.login).state = clientC6 := by
  have h := C6_timeout_failure clientC6 11 respC5 (fun _ => rfl) (by decide)
  exact ⟨h.2.1, h.2.2.1⟩

def sys1 : RawSystem :=
  { id := Json.num 1, gatewayId := Json.num 10, name := Json.str ("Home") }

def sys2 : RawSystem :=
  { id := Json.num 2, gatewayId := Json.num 20, name := Json.str ("Attic") }

def rawSystems : List RawSystem := [sys1, sys2]

def sessionC7 : Session := fun _ =>
  .responds 1 { status := 200,
                jsonBody := Json.arr (rawSystems.map encodeSystem),
                textBody := "" }

def clientC7 : BrinkHomeCloud := BrinkHomeCloud.init sessionC7 ("u") ("p")

/-- Witness for C7 on a two-entry system list. -/
theorem C7_systems_mapping_witness :
    (clientC7.get_systems).result = .ok
      [{ system_id := Json.num 1, gateway_id := Json.num 10,
         name := Json.str ("Home") },
       { system_id := Json.num 2, gateway_id := Json.num 20,
         name := Json.str ("Attic") }] :=
  C7_systems_mapping clientC7 1 200 ("") rawSystems (fun _ => rfl)
    (by decide) (by decide)

def sessionC8 : Session := fun _ =>
  .responds 1 { status := 200, jsonBody := Json.num 7, textBody := "" }

def clientC8 : BrinkHomeCloud :=
  BrinkHomeCloud.init sessionC8 ("alice") ("secret")

/-- Witness for C8 on a concrete 200 login response. -/
theorem C8_login_witness :
    (clientC8.login).result = .ok (Json.num 7) ∧
    (clientC8.login).state = { clientC8 with token_exists := some true } ∧
    (clientC8.login).trace = [login_request clientC8] ∧
    (login_request clientC8).method = "POST" ∧
    (login_request clientC8).url = API_URL ++ "UserLogon" ∧
    (login_request clientC8).data = some (Json.obj
      [("UserName", Json.str ("alice")),
       ("Password", Json.str ("secret"))]) :=
  C8_login clientC8 1 200 (Json.num 7) ("") rfl (by decide) (by decide)

end BrinkHome
